import Mathlib

/-!
Verification development for the cronos-mcp repository.

The repository's VVS analytics component (`src/mcp/vvs/vvs_analytics.ts`)
ingests JSON from the VVS aggregator API, converts string-encoded numeric
fields with JavaScript `parseFloat`, derives per-pair / per-token records,
and formats human-readable strings.  This file gives a shallow embedding of
that code: JavaScript numbers are modelled as the type `JSNum` (NaN, the two
infinities, and finite values as exact rationals — all concrete values
appearing in the claims are exactly representable as IEEE doubles, so the
rational idealisation is faithful at every input used below), `parseFloat`
and `Number.prototype.toFixed` are modelled from the ECMAScript definitions,
and each analytics operation is transcribed as a total Lean function of its
upstream fetch outcome.  Request metadata that no claim concerns (the
`network` echo fields and the `Date.now()` timestamps) is omitted from the
embedded response records.
-/

namespace CronosMcp

/-- Model of a JavaScript number: NaN, ±Infinity, or a finite value
(idealised as an exact rational). -/
inductive JSNum where
  | nan
  | inf
  | negInf
  | fin (q : ℚ)
deriving DecidableEq

/-- Whether a JS number is finite. -/
def JSNum.isFinite : JSNum → Bool
  | .fin _ => true
  | _ => false

/-- The rational value of a finite JS number (0 for the non-finite ones). -/
def JSNum.ratVal : JSNum → ℚ
  | .fin q => q
  | _ => 0

/-- JS `n >= c` for a rational constant `c` (comparisons with NaN are false). -/
def jsGe (n : JSNum) (c : ℚ) : Bool :=
  match n with
  | .inf => true
  | .negInf => false
  | .nan => false
  | .fin q => decide (c ≤ q)

/-- JS `n > 0` (false for NaN). -/
def jsGtZero (n : JSNum) : Bool :=
  match n with
  | .inf => true
  | .negInf => false
  | .nan => false
  | .fin q => decide (0 < q)

/-- JS truthiness of a number: NaN and 0 are falsy. -/
def jsFalsy (n : JSNum) : Bool :=
  match n with
  | .nan => true
  | .fin q => decide (q = 0)
  | _ => false

/-- JS addition on numbers. -/
def jsAdd : JSNum → JSNum → JSNum
  | .nan, _ => .nan
  | _, .nan => .nan
  | .inf, .negInf => .nan
  | .negInf, .inf => .nan
  | .inf, _ => .inf
  | _, .inf => .inf
  | .negInf, _ => .negInf
  | _, .negInf => .negInf
  | .fin a, .fin b => .fin (a + b)

/-- JS subtraction on numbers. -/
def jsSub : JSNum → JSNum → JSNum
  | .nan, _ => .nan
  | _, .nan => .nan
  | .inf, .inf => .nan
  | .negInf, .negInf => .nan
  | .inf, _ => .inf
  | .negInf, _ => .negInf
  | _, .inf => .negInf
  | _, .negInf => .inf
  | .fin a, .fin b => .fin (a - b)

/-- JS multiplication on numbers (signed zeros are not modelled). -/
def jsMul : JSNum → JSNum → JSNum
  | .nan, _ => .nan
  | _, .nan => .nan
  | .inf, .inf => .inf
  | .inf, .negInf => .negInf
  | .negInf, .inf => .negInf
  | .negInf, .negInf => .inf
  | .inf, .fin q => if q = 0 then .nan else if q < 0 then .negInf else .inf
  | .fin q, .inf => if q = 0 then .nan else if q < 0 then .negInf else .inf
  | .negInf, .fin q => if q = 0 then .nan else if q < 0 then .inf else .negInf
  | .fin q, .negInf => if q = 0 then .nan else if q < 0 then .inf else .negInf
  | .fin a, .fin b => .fin (a * b)

/-- JS division on numbers (signed zeros are not modelled; division of a
nonzero finite value by zero takes the sign of the dividend). -/
def jsDiv : JSNum → JSNum → JSNum
  | .nan, _ => .nan
  | _, .nan => .nan
  | .inf, .inf => .nan
  | .inf, .negInf => .nan
  | .negInf, .inf => .nan
  | .negInf, .negInf => .nan
  | .inf, .fin q => if q < 0 then .negInf else .inf
  | .negInf, .fin q => if q < 0 then .inf else .negInf
  | .fin _, .inf => .fin 0
  | .fin _, .negInf => .fin 0
  | .fin a, .fin b =>
    if b = 0 then (if a = 0 then .nan else if a < 0 then .negInf else .inf)
    else .fin (a / b)

/-! ### The `parseFloat` model

Transcribed from the ECMAScript `parseFloat` definition: skip leading
whitespace, read an optional sign, then the longest prefix that is
`Infinity` or a decimal literal (`digits [. digits] [e[±]digits]` or
`. digits ...`); if no such prefix exists the result is NaN. -/

/-- Numeric value of a digit character. -/
def digVal (c : Char) : Nat := c.toNat - '0'.toNat

/-- Value of a digit string read in base 10. -/
def digitsToNat (l : List Char) : Nat :=
  l.foldl (fun a c => a * 10 + digVal c) 0

/-- Parse an exponent part (the characters after `e`/`E`); `none` when no
digits follow, in which case `parseFloat` does not consume the `e`. -/
def parseExpPart (cs : List Char) : Option Int :=
  let (sgn, rest) :=
    match cs with
    | '+' :: r => ((1 : Int), r)
    | '-' :: r => ((-1 : Int), r)
    | r => ((1 : Int), r)
  let ds := rest.takeWhile Char.isDigit
  if ds.isEmpty then none else some (sgn * (digitsToNat ds : Int))

/-- Parse an unsigned decimal literal prefix to its exact rational value. -/
def parseDecimal (cs : List Char) : Option ℚ :=
  let ipart := cs.takeWhile Char.isDigit
  let rest1 := cs.drop ipart.length
  let fpart :=
    match rest1 with
    | '.' :: r => r.takeWhile Char.isDigit
    | _ => []
  let rest2 :=
    match rest1 with
    | '.' :: r => r.drop fpart.length
    | _ => rest1
  if ipart.isEmpty ∧ fpart.isEmpty then none
  else
    let mant : ℚ := (digitsToNat ipart : ℚ) + (digitsToNat fpart : ℚ) / (10 : ℚ) ^ fpart.length
    let e : Int :=
      match rest2 with
      | c :: r => if c = 'e' ∨ c = 'E' then (parseExpPart r).getD 0 else 0
      | [] => 0
    some (mant * (10 : ℚ) ^ e)

/-- JS `parseFloat` on a string. -/
def parseFloat (s : String) : JSNum :=
  let cs := s.toList.dropWhile (fun c => c == ' ' || c == '\t' || c == '\n' || c == '\r')
  let (neg, rest) :=
    match cs with
    | '+' :: r => (false, r)
    | '-' :: r => (true, r)
    | r => (false, r)
  if "Infinity".toList.isPrefixOf rest then
    (if neg then JSNum.negInf else JSNum.inf)
  else
    match parseDecimal rest with
    | some q => JSNum.fin (if neg then -q else q)
    | none => JSNum.nan

/-! ### `toFixed` and the formatting helpers -/

/-- Render a natural number left-padded with zeros to at least `d` digits. -/
def natPad (n : Nat) (d : Nat) : String :=
  let s := toString n
  if s.length < d then String.mk (List.replicate (d - s.length) '0') ++ s else s

/-- `toFixed` on a non-negative rational: the integer closest to `x·10^d`
(ties to the larger), rendered with `d` decimals. -/
def ratToFixedNN (x : ℚ) (d : Nat) : String :=
  let n : Nat := (Int.floor (x * (10 : ℚ) ^ d + 1 / 2)).toNat
  let ip := n / 10 ^ d
  let fp := n % 10 ^ d
  if d = 0 then toString ip else toString ip ++ "." ++ natPad fp d

/-- `Number.prototype.toFixed` on a rational (negative values render a sign
then the non-negative conversion, as in the ECMAScript algorithm). -/
def ratToFixed (q : ℚ) (d : Nat) : String :=
  if q < 0 then "-" ++ ratToFixedNN (-q) d else ratToFixedNN q d

/-- `toFixed` on a JS number (`"NaN"` / `"Infinity"` for the non-finite ones). -/
def jsToFixed (n : JSNum) (d : Nat) : String :=
  match n with
  | .nan => "NaN"
  | .inf => "Infinity"
  | .negInf => "-Infinity"
  | .fin q => ratToFixed q d

/-- Group a digit string with thousands separators (`"1234"` to `"1,234"`). -/
def groupDigits (s : String) : String :=
  let rec chunk3 : List Char → List (List Char)
    | [] => []
    | [a] => [[a]]
    | [a, b] => [[a, b]]
    | a :: b :: c :: rest => [a, b, c] :: chunk3 rest
  String.intercalate "," (((chunk3 s.toList.reverse).reverse).map (fun c => String.mk c.reverse))

/-- `toLocaleString('en-US', {minimumFractionDigits: 2, maximumFractionDigits: 2})`
on a rational. -/
def ratToLocale2 (q : ℚ) : String :=
  let s := ratToFixed q 2
  match s.splitOn "." with
  | [ip, fp] => groupDigits ip ++ "." ++ fp
  | _ => s

/-- The locale rendering on a JS number (`"∞"` for Infinity, as in JS). -/
def jsToLocale2 (n : JSNum) : String :=
  match n with
  | .nan => "NaN"
  | .inf => "∞"
  | .negInf => "-∞"
  | .fin q => ratToLocale2 q

/-- `VVSAnalytics.formatCurrency`, transcribed from
`src/mcp/vvs/vvs_analytics.ts` lines 304-312. -/
def formatCurrency (amount : JSNum) : String :=
  if jsGe amount (10 ^ 12) then "$" ++ jsToFixed (jsDiv amount (.fin (10 ^ 12))) 2 ++ "T"
  else if jsGe amount (10 ^ 9) then "$" ++ jsToFixed (jsDiv amount (.fin (10 ^ 9))) 2 ++ "B"
  else if jsGe amount (10 ^ 6) then "$" ++ jsToFixed (jsDiv amount (.fin (10 ^ 6))) 2 ++ "M"
  else if jsGe amount (10 ^ 3) then "$" ++ jsToFixed (jsDiv amount (.fin (10 ^ 3))) 2 ++ "K"
  else if jsGe amount 1 then "$" ++ jsToFixed amount 2
  else if jsGe amount (1 / 100) then "$" ++ jsToFixed amount 4
  else "$" ++ jsToFixed amount 8

/-- The magnitude-suffix ladder of `formatTokenAmount` applied to the value
that has already been divided by 1e18. -/
def tokenAmountLadder (num : JSNum) : String :=
  if jsGe num (10 ^ 12) then jsToFixed (jsDiv num (.fin (10 ^ 12))) 2 ++ "T"
  else if jsGe num (10 ^ 9) then jsToFixed (jsDiv num (.fin (10 ^ 9))) 2 ++ "B"
  else if jsGe num (10 ^ 6) then jsToFixed (jsDiv num (.fin (10 ^ 6))) 2 ++ "M"
  else if jsGe num (10 ^ 3) then jsToFixed (jsDiv num (.fin (10 ^ 3))) 2 ++ "K"
  else jsToFixed num 2

/-- `VVSAnalytics.formatTokenAmount`, transcribed from
`src/mcp/vvs/vvs_analytics.ts` lines 295-302: the input is unconditionally
divided by 1e18 before the suffix ladder. -/
def formatTokenAmount (amount : String) : String :=
  tokenAmountLadder (jsDiv (parseFloat amount) (.fin (10 ^ 18)))

/-- `formatTokenAmount` applied to `n.toString()` for a JS number `n`;
since `parseFloat (toString n) = n` for every JS number, the round-trip is
modelled directly on the number. -/
def formatTokenAmountNum (n : JSNum) : String :=
  tokenAmountLadder (jsDiv n (.fin (10 ^ 18)))

/-- `VVSAnalytics.formatPrice`, transcribed from
`src/mcp/vvs/vvs_analytics.ts` lines 314-320. -/
def formatPrice (price : JSNum) : String :=
  if jsGe price 1000 then "$" ++ jsToLocale2 price
  else if jsGe price 1 then "$" ++ jsToFixed price 4
  else if jsGe price (1 / 10000) then "$" ++ jsToFixed price 6
  else if jsGtZero price then "$" ++ jsToFixed price 8
  else "$0.00"

/-! ### Raw records and per-record analysis -/

/-- JS `field || '0'`: `undefined` and the empty string are falsy. -/
def orZero : Option String → String
  | none => "0"
  | some s => if s = "" then "0" else s

/-- The numeric-field conversion used throughout the analytics code:
`parseFloat(field || '0')`. -/
def parseField (f : Option String) : JSNum :=
  parseFloat (orZero f)

/-- One raw trading-pair entry from the `/pairs` or `/summary` endpoint;
every field is an untyped, possibly missing string. -/
structure RawPair where
  liquidity : Option String := none
  liquidity_CRO : Option String := none
  base_volume : Option String := none
  quote_volume : Option String := none
  price : Option String := none
  base_symbol : Option String := none
  quote_symbol : Option String := none
deriving DecidableEq

/-- One raw token entry from the `/tokens` or `/tokens/{address}` endpoint. -/
structure RawToken where
  price : Option String := none
  price_CRO : Option String := none
  volume24h : Option String := none
  marketCap : Option String := none
  totalSupply : Option String := none
deriving DecidableEq

/-- The stablecoin symbol list of `VVSAnalytics.isStablePair`
(`src/mcp/vvs/vvs_analytics.ts` line 324). -/
def stableTokens : List String := ["USDT", "USDC", "DAI", "BUSD", "TUSD", "FRAX"]

/-- JS `String.prototype.toUpperCase` (ASCII model). -/
def strUpper (s : String) : String :=
  String.mk (s.toList.map Char.toUpper)

/-- JS `String.prototype.toLowerCase` (ASCII model). -/
def strLower (s : String) : String :=
  String.mk (s.toList.map Char.toLower)

/-- JS `s.split(sep)` for a single-character separator (no limit). -/
def jsSplit (s : String) (sep : Char) : List String :=
  (s.toList.foldr
    (fun c acc =>
      match acc with
      | [] => [[c]]
      | cur :: rest => if c = sep then [] :: cur :: rest else (c :: cur) :: rest)
    [[]]).map (fun l => String.mk l)

/-- JS `sym?.toUpperCase() || ''` on an optional symbol string. -/
def upperOr (o : Option String) : String :=
  (o.map strUpper).getD ""

/-- `VVSAnalytics.isStablePair`, transcribed from
`src/mcp/vvs/vvs_analytics.ts` lines 323-329. -/
def isStablePairF (pairData : RawPair) : Bool :=
  stableTokens.contains (upperOr pairData.base_symbol) ||
    stableTokens.contains (upperOr pairData.quote_symbol)

/-- The canonical WCRO contract address as written in the source. -/
def wcroAddress : String := "0x5C7F8A570d578ED84E63fdFA7b1eE72dEae1AE23"

/-- The lower-cased WCRO address used for token comparisons. -/
def wcroAddressLower : String := "0x5c7f8a570d578ed84e63fdfa7b1ee72deae1ae23"

/-- JS `s.includes(sub)`: substring containment. -/
def strContainsSub (s sub : String) : Bool :=
  (List.range (s.length + 1)).any (fun i => sub.toList.isPrefixOf (s.toList.drop i))

/-- The `formatted` sub-record of a cleaned pair (`getPairs` map body). -/
structure PairFormatted where
  liquidityUSD : String
  liquidityCRO : String
  baseVolume : String
  quoteVolume : String
  totalVolume : String
  price : String
deriving DecidableEq

/-- A cleaned pair record as produced by the map inside
`VVSAnalytics.getPairs` (`src/mcp/vvs/vvs_analytics.ts` lines 224-251). -/
structure PairAnalysis where
  pairId : String
  tokens : List String
  liquidityUSD : JSNum
  liquidityCRO : JSNum
  baseVolume : JSNum
  quoteVolume : JSNum
  price : JSNum
  hasWCRO : Bool
  isStablePair : Bool
  formatted : PairFormatted
deriving DecidableEq

/-- The map body of `VVSAnalytics.getPairs`, lines 224-251 of
`src/mcp/vvs/vvs_analytics.ts`: plain `parseFloat(x || '0')` per field,
with no sanitisation, no plausibility bounds and no unit-scale division. -/
def analyzePair (pairId : String) (pairData : RawPair) : PairAnalysis :=
  let liquidityUSD := parseField pairData.liquidity
  let liquidityCRO := parseField pairData.liquidity_CRO
  let baseVolume := parseField pairData.base_volume
  let quoteVolume := parseField pairData.quote_volume
  let price := parseField pairData.price
  { pairId := pairId
    tokens := jsSplit pairId '_'
    liquidityUSD := liquidityUSD
    liquidityCRO := liquidityCRO
    baseVolume := baseVolume
    quoteVolume := quoteVolume
    price := price
    hasWCRO := strContainsSub pairId wcroAddress
    isStablePair := isStablePairF pairData
    formatted :=
      { liquidityUSD := formatCurrency liquidityUSD
        liquidityCRO := formatTokenAmountNum liquidityCRO
        baseVolume := formatCurrency baseVolume
        quoteVolume := formatCurrency quoteVolume
        totalVolume := formatCurrency (jsAdd baseVolume quoteVolume)
        price := formatPrice price } }

/-- The `formatted` sub-record of a cleaned token (`getTokens` map body). -/
structure TokenFormatted where
  priceUSD : String
  priceCRO : String
  volume24h : Option String
  marketCap : Option String
deriving DecidableEq

/-- A cleaned token record as produced by the map inside
`VVSAnalytics.getTokens` (`src/mcp/vvs/vvs_analytics.ts` lines 119-138). -/
structure TokenAnalysis where
  address : String
  priceUSD : JSNum
  priceCRO : JSNum
  isWCRO : Bool
  formatted : TokenFormatted
deriving DecidableEq

/-- JS `field ? formatCurrency(parseFloat(field)) : undefined`. -/
def optFormatCurrency : Option String → Option String
  | none => none
  | some s => if s = "" then none else some (formatCurrency (parseFloat s))

/-- The map body of `VVSAnalytics.getTokens`, lines 119-138. -/
def analyzeToken (address : String) (tokenData : RawToken) : TokenAnalysis :=
  let priceUSD := parseField tokenData.price
  let priceCRO := parseField tokenData.price_CRO
  { address := address
    priceUSD := priceUSD
    priceCRO := priceCRO
    isWCRO := strLower address == wcroAddressLower
    formatted :=
      { priceUSD := formatPrice priceUSD
        priceCRO := formatPrice priceCRO
        volume24h := optFormatCurrency tokenData.volume24h
        marketCap := optFormatCurrency tokenData.marketCap } }

/-! ### The stable sort used for `Array.prototype.sort`

The source sorts with the comparator `(a, b) => b.liquidityUSD -
a.liquidityUSD`.  ECMAScript sort is stable, and an element `a` stays before
`b` exactly when the comparator result is not a positive number (NaN results
count as equal).  A stable insertion sort with that keep-before test models
it; for consistent comparators (all keys finite) every stable sort agrees. -/

/-- Insert `x` into `l`, keeping `x` before the first element `y` with
`le x y`. -/
def insertBy (le : α → α → Bool) (x : α) : List α → List α
  | [] => [x]
  | y :: ys => if le x y then x :: y :: ys else y :: insertBy le x ys

/-- Stable insertion sort with keep-before test `le`. -/
def sortBy (le : α → α → Bool) : List α → List α
  | [] => []
  | x :: xs => insertBy le x (sortBy le xs)

/-- The keep-before test induced by the comparator
`(a, b) => b.liquidityUSD - a.liquidityUSD` on pair records. -/
def liqLe (a b : PairAnalysis) : Bool :=
  !(jsGtZero (jsSub b.liquidityUSD a.liquidityUSD))

/-! ### Batch data and response envelopes -/

/-- The `if (limit && entries.length > limit) entries.slice(0, limit)`
truncation applied to the raw entry list before any per-record processing. -/
def truncateEntries (l : List α) : Option Nat → List α
  | none => l
  | some k => if 0 < k ∧ k < l.length then l.take k else l

/-- Result status of an analytics response. -/
inductive RStatus where
  | success
  | error
deriving DecidableEq

/-- JS `error.message || fallback`. -/
def errMessage (e fallback : String) : String :=
  if e = "" then fallback else e

/-- The structured `{status, message?, data?}` envelope shared by all
`VVSAnalytics` operations. -/
structure Resp (δ : Type) where
  status : RStatus
  message : Option String
  data : Option δ

/-- The try/catch envelope shared by every `VVSAnalytics` operation, over
the promise outcome of its single axios call: a rejection (network error or
non-2xx status) is caught into a structured error result with
`error.message || fallback`, a fulfilment is processed by `f` into a success
payload; no exception crosses the boundary and the fetch is never retried.
A 2xx response whose body is not JSON does not reject — axios fulfils with
the unparsed body string — so that case is a fulfilment, not an error; the
full three-way outcome is modelled by `axiosResp` below. -/
def fetchResp (fallback : String) (f : π → δ) : Except String π → Resp δ
  | Except.ok p => { status := .success, message := none, data := some (f p) }
  | Except.error e => { status := .error, message := some (errMessage e fallback), data := none }

/-- Upstream payload of the `/pairs` and `/summary` endpoints:
`{updated_at, data: {pairId: RawPair, ...}}`, each part possibly absent
(`data.data || {}` in the source). -/
structure PairsPayload where
  updated_at : Option String := none
  data : Option (List (String × RawPair)) := none

/-- One entry of `summary.topPairsByLiquidity` in the `getPairs` result. -/
structure PairsTop where
  pairId : String
  liquidity : JSNum
  formattedLiquidity : String
deriving DecidableEq

/-- The `summary` object of the `getPairs` success data
(`src/mcp/vvs/vvs_analytics.ts` lines 262-281). -/
structure PairsSummary where
  totalPairs : Nat
  totalLiquidityUSD : JSNum
  wcroPairs : Nat
  stablePairs : Nat
  topPairsByLiquidity : List PairsTop
  formattedTotalLiquidityUSD : String
  formattedAverageLiquidityPerPair : String

/-- The success `data` object of `getPairs` (metadata fields that no claim
concerns — `network`, `timestamp` — are omitted). -/
structure PairsData where
  updated_at : Option String
  pairs : List PairAnalysis
  summary : PairsSummary

/-- The success path of `VVSAnalytics.getPairs`
(`src/mcp/vvs/vvs_analytics.ts` lines 214-285): raw entries are truncated to
the first `limit` before mapping; `pairAnalysis.sort(...)` inside the summary
mutates the array in place, so the returned `pairs` list is the sorted one
while all counts were taken over the same (truncated) records. -/
def getPairsData (payload : PairsPayload) (limit : Option Nat) : PairsData :=
  let entries := truncateEntries (payload.data.getD []) limit
  let pairAnalysis := entries.map (fun e => analyzePair e.1 e.2)
  let totalLiquidityUSD := pairAnalysis.foldl (fun s p => jsAdd s p.liquidityUSD) (.fin 0)
  let wcroWallets := pairAnalysis.filter (fun p => p.hasWCRO)
  let sorted := sortBy liqLe pairAnalysis
  { updated_at := payload.updated_at
    pairs := sorted
    summary :=
      { totalPairs := pairAnalysis.length
        totalLiquidityUSD := totalLiquidityUSD
        wcroPairs := wcroWallets.length
        stablePairs := (pairAnalysis.filter (fun p => p.isStablePair)).length
        topPairsByLiquidity :=
          (sorted.take 5).map (fun p =>
            { pairId := p.pairId, liquidity := p.liquidityUSD
              formattedLiquidity := formatCurrency p.liquidityUSD })
        formattedTotalLiquidityUSD := formatCurrency totalLiquidityUSD
        formattedAverageLiquidityPerPair :=
          formatCurrency (jsDiv totalLiquidityUSD (.fin (pairAnalysis.length : ℚ))) } }

/-- `VVSAnalytics.getPairs` as a function of the fetch outcome. -/
def getPairsResp (limit : Option Nat) : Except String PairsPayload → Resp PairsData :=
  fetchResp "Failed to get VVS pairs" (fun p => getPairsData p limit)

/-- The `formatted` sub-record of a `getSummary` pair entry. -/
structure SummaryPairFormatted where
  liquidityUSD : String
  liquidityCRO : String
  volume24hUSD : String
  baseVolume : String
  quoteVolume : String
deriving DecidableEq

/-- A pair record as produced by the map inside `VVSAnalytics.getSummary`
(`src/mcp/vvs/vvs_analytics.ts` lines 53-73). -/
structure SummaryPair where
  pairId : String
  tokens : List String
  liquidityUSD : JSNum
  liquidityCRO : JSNum
  volume24hUSD : JSNum
  formatted : SummaryPairFormatted
deriving DecidableEq

/-- The map body of `VVSAnalytics.getSummary`, lines 53-73. -/
def analyzeSummaryPair (pairId : String) (pairData : RawPair) : SummaryPair :=
  let liquidityUSD := parseField pairData.liquidity
  let liquidityCRO := parseField pairData.liquidity_CRO
  let volume24hUSD := jsAdd (parseField pairData.base_volume) (parseField pairData.quote_volume)
  { pairId := pairId
    tokens := jsSplit pairId '_'
    liquidityUSD := liquidityUSD
    liquidityCRO := liquidityCRO
    volume24hUSD := volume24hUSD
    formatted :=
      { liquidityUSD := formatCurrency liquidityUSD
        liquidityCRO := formatTokenAmountNum liquidityCRO
        volume24hUSD := formatCurrency volume24hUSD
        baseVolume := formatCurrency (parseField pairData.base_volume)
        quoteVolume := formatCurrency (parseField pairData.quote_volume) } }

/-- The keep-before test of the `getSummary` liquidity sort. -/
def sumLiqLe (a b : SummaryPair) : Bool :=
  !(jsGtZero (jsSub b.liquidityUSD a.liquidityUSD))

/-- The `summary` object of the `getSummary` success data (lines 84-95). -/
structure SummarySummary where
  totalPairs : Nat
  totalLiquidityUSD : JSNum
  totalVolume24hUSD : JSNum
  averageLiquidityPerPair : JSNum
  topPairByLiquidity : Option String
  formattedTotalLiquidityUSD : String
  formattedTotalVolume24hUSD : String
  formattedAverageLiquidityPerPair : String

/-- The success `data` object of `getSummary`. -/
structure SummaryData where
  updated_at : Option String
  pairs : List SummaryPair
  summary : SummarySummary

/-- The success path of `VVSAnalytics.getSummary` (lines 43-99); the in-place
sort for `topPairByLiquidity` leaves the returned `pairs` list sorted. -/
def getSummaryData (payload : PairsPayload) (limit : Option Nat) : SummaryData :=
  let entries := truncateEntries (payload.data.getD []) limit
  let pairAnalysis := entries.map (fun e => analyzeSummaryPair e.1 e.2)
  let totalLiquidityUSD := pairAnalysis.foldl (fun s p => jsAdd s p.liquidityUSD) (.fin 0)
  let totalVolume24h := pairAnalysis.foldl (fun s p => jsAdd s p.volume24hUSD) (.fin 0)
  let sorted := sortBy sumLiqLe pairAnalysis
  { updated_at := payload.updated_at
    pairs := sorted
    summary :=
      { totalPairs := pairAnalysis.length
        totalLiquidityUSD := totalLiquidityUSD
        totalVolume24hUSD := totalVolume24h
        averageLiquidityPerPair := jsDiv totalLiquidityUSD (.fin (pairAnalysis.length : ℚ))
        topPairByLiquidity := sorted.head?.map (fun p => p.pairId)
        formattedTotalLiquidityUSD := formatCurrency totalLiquidityUSD
        formattedTotalVolume24hUSD := formatCurrency totalVolume24h
        formattedAverageLiquidityPerPair :=
          formatCurrency (jsDiv totalLiquidityUSD (.fin (pairAnalysis.length : ℚ))) } }

/-- `VVSAnalytics.getSummary` as a function of the fetch outcome. -/
def getSummaryResp (limit : Option Nat) : Except String PairsPayload → Resp SummaryData :=
  fetchResp "Failed to get VVS summary" (fun p => getSummaryData p limit)

/-- Upstream payload of the `/tokens` endpoint. -/
structure TokensPayload where
  updated_at : Option String := none
  data : Option (List (String × RawToken)) := none

/-- The `summary` object of the `getTokens` success data (lines 148-160). -/
structure TokensSummary where
  totalTokens : Nat
  wcroPrice : JSNum
  wcroAddress : String
  tokensWithUSDPrice : Nat
  tokensWithCROPrice : Nat
  formattedWcroPrice : String
  formattedAverageTokenPrice : String

/-- The success `data` object of `getTokens`. -/
structure TokensData where
  updated_at : Option String
  tokens : List TokenAnalysis
  summary : TokensSummary

/-- The success path of `VVSAnalytics.getTokens`
(`src/mcp/vvs/vvs_analytics.ts` lines 109-164); `wcroToken?.priceUSD || 0`
yields 0 when the WCRO token is absent or its price is falsy (0 or NaN). -/
def getTokensData (payload : TokensPayload) (limit : Option Nat) : TokensData :=
  let entries := truncateEntries (payload.data.getD []) limit
  let tokenAnalysis := entries.map (fun e => analyzeToken e.1 e.2)
  let wcroToken := tokenAnalysis.find? (fun t => t.isWCRO)
  let wcroPrice :=
    match wcroToken with
    | none => JSNum.fin 0
    | some t => if jsFalsy t.priceUSD then JSNum.fin 0 else t.priceUSD
  let avgPrice :=
    jsDiv (tokenAnalysis.foldl (fun s t => jsAdd s t.priceUSD) (.fin 0))
      (.fin (tokenAnalysis.length : ℚ))
  { updated_at := payload.updated_at
    tokens := tokenAnalysis
    summary :=
      { totalTokens := tokenAnalysis.length
        wcroPrice := wcroPrice
        wcroAddress := wcroAddress
        tokensWithUSDPrice := (tokenAnalysis.filter (fun t => jsGtZero t.priceUSD)).length
        tokensWithCROPrice := (tokenAnalysis.filter (fun t => jsGtZero t.priceCRO)).length
        formattedWcroPrice := formatPrice wcroPrice
        formattedAverageTokenPrice := formatPrice avgPrice } }

/-- `VVSAnalytics.getTokens` as a function of the fetch outcome. -/
def getTokensResp (limit : Option Nat) : Except String TokensPayload → Resp TokensData :=
  fetchResp "Failed to get VVS tokens" (fun p => getTokensData p limit)

/-- Upstream payload of the `/tokens/{address}` endpoint. -/
structure TokenInfoPayload where
  updated_at : Option String := none
  data : Option RawToken := none

/-- JS `field ? formatTokenAmount(field) : undefined`. -/
def optFormatTokenAmount : Option String → Option String
  | none => none
  | some s => if s = "" then none else some (formatTokenAmount s)

/-- The success `data` object of `getTokenInfo` (the `blockExplorer` URL and
other request metadata are omitted). -/
structure TokenInfoData where
  address : String
  updated_at : Option String
  priceUSD : JSNum
  priceCRO : JSNum
  isWCRO : Bool
  formattedPriceUSD : String
  formattedPriceCRO : String
  formattedVolume24h : Option String
  formattedMarketCap : Option String
  formattedTotalSupply : Option String

/-- The success path of `VVSAnalytics.getTokenInfo`
(`src/mcp/vvs/vvs_analytics.ts` lines 174-204). -/
def getTokenInfoData (tokenAddress : String) (payload : TokenInfoPayload) : TokenInfoData :=
  let priceUSD := parseField (payload.data.bind (fun t => t.price))
  let priceCRO := parseField (payload.data.bind (fun t => t.price_CRO))
  { address := tokenAddress
    updated_at := payload.updated_at
    priceUSD := priceUSD
    priceCRO := priceCRO
    isWCRO := strLower tokenAddress == wcroAddressLower
    formattedPriceUSD := formatPrice priceUSD
    formattedPriceCRO := formatPrice priceCRO
    formattedVolume24h := optFormatCurrency (payload.data.bind (fun t => t.volume24h))
    formattedMarketCap := optFormatCurrency (payload.data.bind (fun t => t.marketCap))
    formattedTotalSupply := optFormatTokenAmount (payload.data.bind (fun t => t.totalSupply)) }

/-- `VVSAnalytics.getTokenInfo` as a function of the fetch outcome. -/
def getTokenInfoResp (tokenAddress : String) :
    Except String TokenInfoPayload → Resp TokenInfoData :=
  fetchResp "Failed to get token info" (getTokenInfoData tokenAddress)

/-- Upstream payload of the `/supply` endpoint. -/
structure SupplyPayload where
  totalSupply : Option String := none
  circulatingSupply : Option String := none
  burnedSupply : Option String := none

/-- JS string coercion of a possibly-undefined string value: `undefined`
coerces to the string `"undefined"` when passed into `parseFloat`. -/
def jsStr (o : Option String) : String :=
  o.getD "undefined"

/-- The `formatted` sub-record of the `getSupplyInfo` success data. -/
structure SupplyFormatted where
  totalSupply : String
  circulatingSupply : String
  burnedSupply : String
  burnRate : String
deriving DecidableEq

/-- The success `data` object of `getSupplyInfo`. -/
structure SupplyData where
  totalSupply : Option String
  circulatingSupply : Option String
  burnedSupply : Option String
  formatted : SupplyFormatted

/-- The success path of `VVSAnalytics.getSupplyInfo`
(`src/mcp/vvs/vvs_analytics.ts` lines 14-33). -/
def getSupplyData (payload : SupplyPayload) : SupplyData :=
  { totalSupply := payload.totalSupply
    circulatingSupply := payload.circulatingSupply
    burnedSupply := payload.burnedSupply
    formatted :=
      { totalSupply := formatTokenAmount (jsStr payload.totalSupply)
        circulatingSupply := formatTokenAmount (jsStr payload.circulatingSupply)
        burnedSupply := formatTokenAmount (jsStr payload.burnedSupply)
        burnRate :=
          jsToFixed
            (jsMul (jsDiv (parseFloat (jsStr payload.burnedSupply))
              (parseFloat (jsStr payload.totalSupply))) (.fin 100)) 2 ++ "%" } }

/-- `VVSAnalytics.getSupplyInfo` as a function of the fetch outcome. -/
def getSupplyResp : Except String SupplyPayload → Resp SupplyData :=
  fetchResp "Failed to get VVS supply info" getSupplyData

/-! ### The full axios outcome

An `axios.get` with the default configuration has three observable
outcomes: the promise rejects on a network error or a non-2xx status; a 2xx
response with a JSON body fulfils with the parsed payload; and a 2xx
response with a non-JSON body also fulfils — axios's default transform
tries `JSON.parse` and on failure silently yields the unparsed body string
(`transitional.silentJSONParsing` defaults to true).  On that string every
property access the extraction code performs (`data.data`, `data.data?.x`,
`data.updated_at`, `data.totalSupply`, ...) is `undefined`, so the success
path runs with the all-absent payload. -/

/-- Outcome of an axios GET as the calling code observes it. -/
inductive FetchOutcome (π : Type) where
  | reject (e : String)
  | json (p : π)
  | rawBody (body : String)

/-- The try/catch envelope over the full axios outcome: only a rejection is
caught into a structured error result; both fulfilment cases run the success
path, a non-JSON body behaving as the all-absent payload `empty`. -/
def axiosResp (fallback : String) (empty : π) (f : π → δ) : FetchOutcome π → Resp δ
  | .reject e => { status := .error, message := some (errMessage e fallback), data := none }
  | .json p => { status := .success, message := none, data := some (f p) }
  | .rawBody _ => { status := .success, message := none, data := some (f empty) }

/-- `VVSAnalytics.getSupplyInfo` over the full axios outcome. -/
def getSupplyRespAxios : FetchOutcome SupplyPayload → Resp SupplyData :=
  axiosResp "Failed to get VVS supply info" {} getSupplyData

/-- `VVSAnalytics.getSummary` over the full axios outcome. -/
def getSummaryRespAxios (limit : Option Nat) : FetchOutcome PairsPayload → Resp SummaryData :=
  axiosResp "Failed to get VVS summary" {} (fun p => getSummaryData p limit)

/-- `VVSAnalytics.getTokens` over the full axios outcome. -/
def getTokensRespAxios (limit : Option Nat) : FetchOutcome TokensPayload → Resp TokensData :=
  axiosResp "Failed to get VVS tokens" {} (fun p => getTokensData p limit)

/-- `VVSAnalytics.getTokenInfo` over the full axios outcome. -/
def getTokenInfoRespAxios (tokenAddress : String) :
    FetchOutcome TokenInfoPayload → Resp TokenInfoData :=
  axiosResp "Failed to get token info" {} (getTokenInfoData tokenAddress)

/-- `VVSAnalytics.getPairs` over the full axios outcome. -/
def getPairsRespAxios (limit : Option Nat) : FetchOutcome PairsPayload → Resp PairsData :=
  axiosResp "Failed to get VVS pairs" {} (fun p => getPairsData p limit)

/-! ### Key sets of the success objects

These transcribe the keys of the object literals returned on the success
path of `getPairs` (lines 256-285) and `getTokens` (lines 142-164); they let
us state which fields a successful batch response does and does not carry. -/

/-- Keys of the `data` object literal in the `getPairs` success result. -/
def getPairsDataKeys : List String :=
  ["updated_at", "pairs", "network", "summary"]

/-- Keys of the `summary` object literal in the `getPairs` success result. -/
def getPairsSummaryKeys : List String :=
  ["totalPairs", "totalLiquidityUSD", "wcroPairs", "stablePairs",
   "topPairsByLiquidity", "formatted"]

/-- Keys of the `data` object literal in the `getTokens` success result. -/
def getTokensDataKeys : List String :=
  ["updated_at", "tokens", "network", "summary"]

/-- Keys of the `summary` object literal in the `getTokens` success result. -/
def getTokensSummaryKeys : List String :=
  ["totalTokens", "wcroPrice", "wcroAddress", "tokensWithUSDPrice",
   "tokensWithCROPrice", "formatted"]

/-! ### The market-summary CRO price fallback

`GetMarketSummaryTool.handler` (`src/mcp/market/get_market_tools.ts`, the
block cited as `src/mcp/index.ts` lines 207-222) wraps
`targetAgent.getTickerByInstrument('CRO_USD')` in a try/catch whose catch
tries `'CRO_USDT'`.  `CronosAnalyticsAgent.getTickerByInstrument` itself
catches every failure and resolves with a structured error envelope, so the
call seen by the handler never rejects; this is modelled by wrapping the
envelope in `Except.ok`. -/

/-- The `result` field of the exchange ticker data (opaque blob). -/
structure AgentTickerData where
  result : Option String
deriving DecidableEq

/-- `CronosAnalyticsAgent.getTickerByInstrument` as a function of the fetch
outcome (`src/agent/analytics.ts` lines 330-350): the internal try/catch
always returns an envelope. -/
def agentGetTicker (f : Except String AgentTickerData) : Resp AgentTickerData :=
  fetchResp "Failed to get ticker data" id f

/-- The agent call as observed by the tool handler: an awaited call that can
in principle reject, but in fact always resolves (the agent catches
internally), hence always `Except.ok`. -/
def agentGetTickerCall (f : Except String AgentTickerData) :
    Except String (Resp AgentTickerData) :=
  Except.ok (agentGetTicker f)

/-- Outcome of the CRO price lookup section of the handler: the price found
(if any) and whether the `CRO_USDT` fallback fetch was attempted. -/
structure CroLookup where
  croPrice : Option String
  secondAttempted : Bool
deriving DecidableEq

/-- The CRO price section of `GetMarketSummaryTool.handler` (lines 207-222),
transcribed with its try/catch control flow intact: `f1` and `f2` are the
would-be fetch outcomes of the `CRO_USD` and `CRO_USDT` ticker lookups. -/
def croPriceSection (f1 f2 : Except String AgentTickerData) : CroLookup :=
  match agentGetTickerCall f1 with
  | Except.ok r => { croPrice := r.data.bind (fun d => d.result), secondAttempted := false }
  | Except.error _ =>
    match agentGetTickerCall f2 with
    | Except.ok r => { croPrice := r.data.bind (fun d => d.result), secondAttempted := true }
    | Except.error _ => { croPrice := none, secondAttempted := true }

/-! ### The analytics agent constructor -/

/-- The two Cronos networks of `src/config.ts`. -/
inductive CronosNetwork where
  | cronosMainnet
  | cronosZkevmMainnet
deriving DecidableEq

/-- Observable outcome of running `CronosAnalyticsAgent`'s constructor:
the network field, whether the platform client was re-initialised for a
different network, and whether the missing-key warning was emitted. -/
structure AgentInit where
  network : CronosNetwork
  clientReinit : Bool
  warnedMissingKey : Bool
deriving DecidableEq

/-- `CronosAnalyticsAgent`'s constructor, transcribed from
`src/agent/analytics.ts` lines 10-29: `this.network = targetNetwork ||
'cronos-mainnet'`, then a switch branch guarded by
`targetNetwork && targetNetwork !== this.network`. -/
def agentCtor (targetNetwork : Option CronosNetwork)
    (canSwitch : CronosNetwork → Bool) : AgentInit :=
  let network := targetNetwork.getD CronosNetwork.cronosMainnet
  match targetNetwork with
  | some t =>
    if t ≠ network then
      if canSwitch t then
        { network := t, clientReinit := true, warnedMissingKey := false }
      else
        { network := network, clientReinit := false, warnedMissingKey := true }
    else
      { network := network, clientReinit := false, warnedMissingKey := false }
  | none => { network := network, clientReinit := false, warnedMissingKey := false }

/-! ### Lemmas about the stable sort -/

theorem insertBy_length (le : α → α → Bool) (x : α) (l : List α) :
    (insertBy le x l).length = l.length + 1 := by
  induction l with
  | nil => rfl
  | cons y ys ih =>
    simp only [insertBy]
    by_cases h : le x y = true
    · simp [h]
    · simp [h, ih]

theorem sortBy_length (le : α → α → Bool) (l : List α) :
    (sortBy le l).length = l.length := by
  induction l with
  | nil => rfl
  | cons x xs ih => simp [sortBy, insertBy_length, ih]

theorem insertBy_perm (le : α → α → Bool) (x : α) (l : List α) :
    List.Perm (insertBy le x l) (x :: l) := by
  induction l with
  | nil => exact List.Perm.refl _
  | cons y ys ih =>
    simp only [insertBy]
    by_cases h : le x y = true
    · simp [h]
    · rw [if_neg h]
      exact (ih.cons y).trans (List.Perm.swap x y ys)

theorem sortBy_perm (le : α → α → Bool) (l : List α) :
    List.Perm (sortBy le l) l := by
  induction l with
  | nil => exact List.Perm.refl _
  | cons x xs ih => exact (insertBy_perm le x (sortBy le xs)).trans (ih.cons x)

theorem insertBy_mem (le : α → α → Bool) (x a : α) (l : List α) :
    a ∈ insertBy le x l ↔ a = x ∨ a ∈ l := by
  rw [(insertBy_perm le x l).mem_iff, List.mem_cons]

theorem sortBy_mem (le : α → α → Bool) (a : α) (l : List α) :
    a ∈ sortBy le l ↔ a ∈ l :=
  (sortBy_perm le l).mem_iff

theorem insertBy_pairwise (le : α → α → Bool) (x : α) (l : List α)
    (htot : ∀ b ∈ l, le x b = false → le b x = true)
    (htrans : ∀ b ∈ l, ∀ c ∈ l, le x b = true → le b c = true → le x c = true)
    (hl : List.Pairwise (fun a b => le a b = true) l) :
    List.Pairwise (fun a b => le a b = true) (insertBy le x l) := by
  induction l with
  | nil => simp [insertBy]
  | cons y ys ih =>
    simp only [insertBy]
    rcases List.pairwise_cons.mp hl with ⟨hy, hys⟩
    by_cases hxy : le x y = true
    · rw [if_pos hxy]
      refine List.pairwise_cons.mpr ⟨?_, hl⟩
      intro b hb
      rcases List.mem_cons.mp hb with rfl | hb
      · exact hxy
      · exact htrans y (List.mem_cons_self y ys) b (List.mem_cons_of_mem y hb) hxy (hy b hb)
    · rw [if_neg hxy]
      refine List.pairwise_cons.mpr ⟨?_, ?_⟩
      · intro b hb
        rcases (insertBy_mem le x b ys).mp hb with rfl | hb
        · exact htot y (List.mem_cons_self y ys) (Bool.not_eq_true _ ▸ hxy)
        · exact hy b hb
      · exact ih
          (fun b hb => htot b (List.mem_cons_of_mem y hb))
          (fun b hb c hc => htrans b (List.mem_cons_of_mem y hb) c (List.mem_cons_of_mem y hc))
          hys

theorem sortBy_pairwise (le : α → α → Bool) (l : List α)
    (htot : ∀ a ∈ l, ∀ b ∈ l, le a b = true ∨ le b a = true)
    (htrans : ∀ a ∈ l, ∀ b ∈ l, ∀ c ∈ l, le a b = true → le b c = true → le a c = true) :
    List.Pairwise (fun a b => le a b = true) (sortBy le l) := by
  induction l with
  | nil => simp [sortBy]
  | cons x xs ih =>
    simp only [sortBy]
    have hx : x ∈ x :: xs := List.mem_cons_self x xs
    have hmem : ∀ a ∈ sortBy le xs, a ∈ x :: xs := fun a ha =>
      List.mem_cons_of_mem x ((sortBy_mem le a xs).mp ha)
    refine insertBy_pairwise le x (sortBy le xs) ?_ ?_ ?_
    · intro b hb hfalse
      rcases htot x hx b (hmem b hb) with h | h
      · rw [h] at hfalse; cases hfalse
      · exact h
    · intro b hb c hc hxb hbc
      exact htrans x hx b (hmem b hb) c (hmem c hc) hxb hbc
    · exact ih
        (fun a ha b hb => htot a (List.mem_cons_of_mem x ha) b (List.mem_cons_of_mem x hb))
        (fun a ha b hb c hc =>
          htrans a (List.mem_cons_of_mem x ha) b (List.mem_cons_of_mem x hb) c
            (List.mem_cons_of_mem x hc))

/-- On records with finite liquidity, the JS comparator keep-before test is
the rational comparison `b.liquidityUSD ≤ a.liquidityUSD`. -/
theorem liqLe_fin {a b : PairAnalysis} {qa qb : ℚ}
    (ha : a.liquidityUSD = JSNum.fin qa) (hb : b.liquidityUSD = JSNum.fin qb) :
    liqLe a b = decide (qb ≤ qa) := by
  simp only [liqLe, ha, hb, jsSub, jsGtZero]
  rcases le_or_lt qb qa with h | h
  · simp [h, not_lt.mpr (sub_nonpos.mpr h)]
  · simp [not_le.mpr h, sub_pos.mpr h]

unseal Rat.mul Rat.inv Rat.add Rat.sub

/-- Every `VVSAnalytics` operation wraps its single fetch in the same
try/catch: a fetch failure becomes a structured error envelope whose message
is `error.message || fallback`, hence nonempty whenever the fallback is. -/
theorem fetchResp_error_envelope (fallback : String) (hf : fallback ≠ "")
    (f : π → δ) (e : String) :
    (fetchResp fallback f (Except.error e)).status = RStatus.error ∧
    ∃ m, (fetchResp fallback f (Except.error e)).message = some m ∧ m ≠ "" := by
  refine ⟨rfl, errMessage e fallback, rfl, ?_⟩
  unfold errMessage
  by_cases h : e = ""
  · simp [h, hf]
  · simp [h]

/-- The rejection branch of the full-outcome envelope: a caught rejection
yields status error with a nonempty message whenever the fallback is
nonempty. -/
theorem axiosResp_reject_envelope (fallback : String) (hf : fallback ≠ "")
    (empty : π) (f : π → δ) (e : String) :
    (axiosResp fallback empty f (FetchOutcome.reject e)).status = RStatus.error ∧
    ∃ m, (axiosResp fallback empty f (FetchOutcome.reject e)).message = some m ∧ m ≠ "" := by
  refine ⟨rfl, errMessage e fallback, rfl, ?_⟩
  unfold errMessage
  by_cases h : e = ""
  · simp [h, hf]
  · simp [h]

/-- The `limit`-guarded `slice` keeps `min n limit` of `n` entries when the
limit is positive. -/
theorem truncateEntries_length_pos (l : List α) (k : Nat) (hk : 0 < k) :
    (truncateEntries l (some k)).length = min l.length k := by
  simp only [truncateEntries]
  by_cases h : k < l.length
  · rw [if_pos ⟨hk, h⟩, List.length_take, Nat.min_comm]
  · rw [if_neg (fun hc => h hc.2), Nat.min_eq_left (Nat.le_of_not_lt h)]

/-- Truncating an empty entry list yields the empty list for every limit. -/
theorem truncateEntries_nil (limit : Option Nat) :
    truncateEntries ([] : List α) limit = [] := by
  cases limit with
  | none => rfl
  | some k => simp [truncateEntries]

/-! ## The claims -/

/-- Claim C1, counterexample.  The claim states that the numeric-field
conversion used when normalizing pairs returns exactly 0 for non-numeric
inputs and for magnitudes above 1e15.  In the code the conversion is
`parseFloat(field || '0')`: the field `"abc"` yields NaN (not 0, and not
finite), and `"1e20"` passes through as 1e20 instead of being clamped. -/
theorem c1_counterexample :
    (analyzePair "p" { liquidity := some "abc" }).liquidityUSD = JSNum.nan ∧
    (analyzePair "p" { liquidity := some "abc" }).liquidityUSD ≠ JSNum.fin 0 ∧
    ((analyzePair "p" { liquidity := some "abc" }).liquidityUSD).isFinite = false ∧
    (analyzePair "p" { liquidity := some "1e20" }).liquidityUSD ≠ JSNum.fin 0 :=
  ⟨by decide, by decide, by decide, by decide⟩

/-- Claim C1, amended.  The numeric-field conversion used when normalizing
pairs and tokens is total and never raises, and returns exactly 0 when the
field is missing or empty; but it performs no clamping: non-numeric input
yields NaN, `"Infinity"` yields Infinity, and magnitudes above 1e15 (such as
`"1e20"`) pass through unchanged. -/
theorem c1_amended :
    parseField none = JSNum.fin 0 ∧
    parseField (some "") = JSNum.fin 0 ∧
    parseField (some "abc") = JSNum.nan ∧
    parseField (some "Infinity") = JSNum.inf ∧
    parseField (some "-5") = JSNum.fin (-5) ∧
    parseField (some "1e20") = JSNum.fin (10 ^ 20) ∧
    (analyzePair "p" { liquidity := some "1e20" }).liquidityUSD = JSNum.fin (10 ^ 20) ∧
    (analyzeToken "0xToken" { price := some "Infinity" }).priceUSD = JSNum.inf :=
  ⟨by decide, by decide, by decide, by decide, by decide, by decide, by decide, by decide⟩

/-- Claim C3, counterexample.  The claim states that a pair with liquidity
`"5e15"` is normalized to a USD liquidity of exactly 0.005 (the 1e18
unit-scale division).  In the code no unit-scale correction exists: the
value stays 5e15. -/
theorem c3_counterexample :
    (analyzePair "p" { liquidity := some "5e15" }).liquidityUSD = JSNum.fin (5 * 10 ^ 15) ∧
    (analyzePair "p" { liquidity := some "5e15" }).liquidityUSD ≠ JSNum.fin (1 / 200) :=
  ⟨by decide, by decide⟩

/-- Claim C3, amended.  Pair normalization applies no unit-scale correction:
whatever finite value the liquidity field parses to — even one above 1e12 —
appears verbatim in the cleaned record, for the USD-denominated and the
native-denominated liquidity field alike; in particular `"5e15"` yields
5e15, not 0.005 (and the pair is not rejected). -/
theorem c3_amended (pairId s : String) (pd pd' : RawPair) (q : ℚ)
    (hs : pd.liquidity = some s) (hs' : pd'.liquidity_CRO = some s)
    (hp : parseFloat s = JSNum.fin q) (_hq : (10 ^ 12 : ℚ) < q) :
    (analyzePair pairId pd).liquidityUSD = JSNum.fin q ∧
    (analyzePair pairId pd').liquidityCRO = JSNum.fin q := by
  have hne : s ≠ "" := by
    intro h
    rw [h] at hp
    have hh : parseFloat "" = JSNum.nan := by decide
    rw [hh] at hp
    exact JSNum.noConfusion hp
  have hz : orZero (some s) = s := by simp [orZero, hne]
  constructor
  · show parseField pd.liquidity = JSNum.fin q
    rw [hs]
    show parseFloat (orZero (some s)) = JSNum.fin q
    rw [hz, hp]
  · show parseField pd'.liquidity_CRO = JSNum.fin q
    rw [hs']
    show parseFloat (orZero (some s)) = JSNum.fin q
    rw [hz, hp]

/-- Witness for the amended C3 at the concrete input `"5e15"`. -/
theorem c3_amended_witness :
    (({ liquidity := some "5e15" } : RawPair).liquidity = some "5e15" ∧
     ({ liquidity_CRO := some "5e15" } : RawPair).liquidity_CRO = some "5e15" ∧
     parseFloat "5e15" = JSNum.fin (5 * 10 ^ 15) ∧
     (10 ^ 12 : ℚ) < 5 * 10 ^ 15) ∧
    ((analyzePair "p" { liquidity := some "5e15" }).liquidityUSD = JSNum.fin (5 * 10 ^ 15) ∧
     (analyzePair "p" { liquidity_CRO := some "5e15" }).liquidityCRO = JSNum.fin (5 * 10 ^ 15)) :=
  ⟨⟨rfl, rfl, by decide, by decide⟩,
   c3_amended "p" "5e15" { liquidity := some "5e15" } { liquidity_CRO := some "5e15" }
     (5 * 10 ^ 15) rfl rfl (by decide) (by decide)⟩

/-- Claim C6, counterexample.  The claim states that any amount of 0 or
below formats as `"$0.00"`; in the code `formatCurrency(0)` falls through to
the 8-decimal tier and renders `"$0.00000000"` (there is no `≤ 0` guard in
`formatCurrency`; only `formatPrice` has one). -/
theorem c6_counterexample :
    formatCurrency (JSNum.fin 0) = "$0.00000000" ∧
    formatCurrency (JSNum.fin 0) ≠ "$0.00" :=
  ⟨by decide, by decide⟩

/-- Claim C6, amended.  The T/B/M/K ladder holds as stated for finite
amounts (for example every amount in `[1000, 1e6)` renders as
`"$" ++ (amount/1000 to 2 decimals) ++ "K"`, and `formatCurrency(1234) =
"$1.23K"`), but there is no `"$0.00"` guard: 0 and negative amounts fall
into the 8-decimal tier (`formatCurrency(0) = "$0.00000000"`), NaN renders
`"$NaN"` and Infinity renders `"$InfinityT"`. -/
theorem c6_amended (q : ℚ) (h1 : 1000 ≤ q) (h2 : q < 10 ^ 6) :
    formatCurrency (JSNum.fin q) = "$" ++ ratToFixed (q / 10 ^ 3) 2 ++ "K" ∧
    formatCurrency (JSNum.fin 1234) = "$1.23K" ∧
    formatCurrency (JSNum.fin 0) = "$0.00000000" ∧
    formatCurrency JSNum.nan = "$NaN" ∧
    formatCurrency JSNum.inf = "$InfinityT" ∧
    formatCurrency (JSNum.fin (-5)) = "$-5.00000000" := by
  refine ⟨?_, by decide, by decide, by decide, by decide, by decide⟩
  have hq6 : ¬ ((10 : ℚ) ^ 6 ≤ q) := not_le.mpr h2
  have hq9 : ¬ ((10 : ℚ) ^ 9 ≤ q) := by
    intro h
    exact hq6 (le_trans (by norm_num) h)
  have hq12 : ¬ ((10 : ℚ) ^ 12 ≤ q) := by
    intro h
    exact hq6 (le_trans (by norm_num) h)
  have hq3 : (10 : ℚ) ^ 3 ≤ q := by
    calc (10 : ℚ) ^ 3 = 1000 := by norm_num
    _ ≤ q := h1
  have h1000 : ((10 : ℚ) ^ 3) ≠ 0 := by norm_num
  simp only [formatCurrency, jsGe, decide_eq_true_eq, hq12, hq9, hq6, hq3,
    if_false, if_true, decide_eq_false hq12, decide_eq_false hq9,
    decide_eq_false hq6, decide_eq_true hq3, Bool.false_eq_true, if_false]
  simp [jsDiv, h1000, jsToFixed]

/-- Witness for the amended C6 at the concrete amount 1234. -/
theorem c6_amended_witness :
    ((1000 : ℚ) ≤ 1234 ∧ (1234 : ℚ) < 10 ^ 6) ∧
    (formatCurrency (JSNum.fin 1234) = "$" ++ ratToFixed ((1234 : ℚ) / 10 ^ 3) 2 ++ "K" ∧
     formatCurrency (JSNum.fin 1234) = "$1.23K" ∧
     formatCurrency (JSNum.fin 0) = "$0.00000000" ∧
     formatCurrency JSNum.nan = "$NaN" ∧
     formatCurrency JSNum.inf = "$InfinityT" ∧
     formatCurrency (JSNum.fin (-5)) = "$-5.00000000") :=
  ⟨⟨by decide, by decide⟩, c6_amended 1234 (by decide) (by decide)⟩

/-- Claim C7, counterexample.  The claim states that inputs at or below 1e15
are suffixed at their given scale (so `"1e15"` would render `"1000.00T"`);
in the code `formatTokenAmount` divides every input by 1e18
unconditionally, so `"1e15"` renders `"0.00"`. -/
theorem c7_counterexample :
    formatTokenAmount "1e15" = "0.00" ∧
    formatTokenAmount "1e15" ≠ "1000.00T" :=
  ⟨by decide, by decide⟩

/-- Claim C7, amended.  `formatTokenAmount` divides the parsed input by 1e18
unconditionally (no 1e15 threshold), then applies the T/B/M/K ladder without
a `$` prefix; below the K tier it always renders 2 decimals (not the
4/8-decimal tiers of `formatCurrency`).  In particular every input parsing
to a finite value below 1e21 renders as the 2-decimal rendering of
`value/1e18`, so `"1e15"` gives `"0.00"` while `"5e21"` gives `"5.00K"`. -/
theorem c7_amended (s : String) (q : ℚ)
    (hp : parseFloat s = JSNum.fin q) (h1 : q < 10 ^ 21) :
    formatTokenAmount s = ratToFixed (q / 10 ^ 18) 2 ∧
    formatTokenAmount "1e15" = "0.00" ∧
    formatTokenAmount "5e21" = "5.00K" := by
  refine ⟨?_, by decide, by decide⟩
  have h18 : (0 : ℚ) < 10 ^ 18 := by norm_num
  have hdiv : q / 10 ^ 18 < 10 ^ 3 := by
    rw [div_lt_iff₀ h18]
    calc q < 10 ^ 21 := h1
    _ = (10 : ℚ) ^ 3 * 10 ^ 18 := by norm_num
  have hq3 : ¬ ((10 : ℚ) ^ 3 ≤ q / 10 ^ 18) := not_le.mpr hdiv
  have hq6 : ¬ ((10 : ℚ) ^ 6 ≤ q / 10 ^ 18) := by
    intro h
    exact hq3 (le_trans (by norm_num) h)
  have hq9 : ¬ ((10 : ℚ) ^ 9 ≤ q / 10 ^ 18) := by
    intro h
    exact hq3 (le_trans (by norm_num) h)
  have hq12 : ¬ ((10 : ℚ) ^ 12 ≤ q / 10 ^ 18) := by
    intro h
    exact hq3 (le_trans (by norm_num) h)
  have hd : jsDiv (parseFloat s) (JSNum.fin (10 ^ 18)) = JSNum.fin (q / 10 ^ 18) := by
    rw [hp]
    simp [jsDiv, (by norm_num : ((10 : ℚ) ^ 18) ≠ 0)]
  rw [formatTokenAmount, hd]
  simp only [tokenAmountLadder, jsGe, decide_eq_false hq12, decide_eq_false hq9,
    decide_eq_false hq6, decide_eq_false hq3, Bool.false_eq_true, if_false]
  rfl

/-- Witness for the amended C7 at the concrete input `"1e15"`. -/
theorem c7_amended_witness :
    (parseFloat "1e15" = JSNum.fin (10 ^ 15) ∧ (10 ^ 15 : ℚ) < 10 ^ 21) ∧
    (formatTokenAmount "1e15" = ratToFixed ((10 ^ 15 : ℚ) / 10 ^ 18) 2 ∧
     formatTokenAmount "1e15" = "0.00" ∧
     formatTokenAmount "5e21" = "5.00K") :=
  ⟨⟨by decide, by decide⟩, c7_amended "1e15" (10 ^ 15) (by decide) (by decide)⟩

/-- Claim C8 (confirmed): a pair is flagged stable exactly when its base or
quote symbol, uppercased (i.e. compared case-insensitively), belongs to the
fixed set USDT, USDC, DAI, BUSD, TUSD, FRAX; a `"USDC"` base makes the pair
stable for every quote symbol, and a `"FOO"/"BAR"` pair is not stable. -/
theorem c8_stable_pair (pairId : String) (pd : RawPair) (qsym : Option String) :
    ((analyzePair pairId pd).isStablePair = true ↔
      upperOr pd.base_symbol ∈ stableTokens ∨ upperOr pd.quote_symbol ∈ stableTokens) ∧
    (analyzePair "p" { base_symbol := some "USDC", quote_symbol := qsym }).isStablePair = true ∧
    (analyzePair "p" { base_symbol := some "FOO", quote_symbol := some "BAR" }).isStablePair
      = false := by
  refine ⟨?_, ?_, by decide⟩
  · show isStablePairF pd = true ↔ _
    simp [isStablePairF, List.contains, List.elem_iff]
  · show isStablePairF { base_symbol := some "USDC", quote_symbol := qsym } = true
    unfold isStablePairF
    rw [show stableTokens.contains (upperOr (some "USDC")) = true from by decide]
    exact Bool.true_or _

/-- Claim C9 (code bug): the CRO price lookup of the market-summary handler
is written as a try/catch fallback from `CRO_USD` to `CRO_USDT`, but
`getTickerByInstrument` catches every fetch failure internally and resolves
with an error envelope, so the handler's catch — and with it the `CRO_USDT`
fallback — is unreachable: the second candidate is never attempted, even
when the first fetch fails and the second would succeed, and the price comes
out empty. -/
theorem c9_fallback_unreachable :
    (∀ f1 f2 : Except String AgentTickerData,
      (croPriceSection f1 f2).secondAttempted = false) ∧
    croPriceSection (Except.error "Network Error") (Except.ok { result := some "42.5" })
      = { croPrice := none, secondAttempted := false } ∧
    (croPriceSection (Except.error "Network Error")
        (Except.ok { result := some "42.5" })).croPrice ≠ some "42.5" :=
  ⟨fun _ _ => rfl, by decide, by decide⟩

/-- Claim C2, counterexample.  The claim states that for every raw batch and
limit, the report counts the whole input (`totalPairs = N`) and the records
are the top-`limit` valid pairs by liquidity.  In the code the raw entry
list is truncated to its first `limit` entries before anything else: for the
two-pair batch A (liquidity 1), B (liquidity 5) with limit 1, the summary
reports `totalPairs = 1` (not 2) and the single returned record is A, the
first raw entry, not B, the pair with the larger liquidity. -/
theorem c2_counterexample :
    (getPairsData { data := some [("A", { liquidity := some "1" }), ("B", { liquidity := some "5" })] } (some 1)).summary.totalPairs = 1 ∧
    (1 : Nat) ≠ 2 ∧
    ((getPairsData { data := some [("A", { liquidity := some "1" }), ("B", { liquidity := some "5" })] } (some 1)).pairs.map (fun p => p.pairId)) = ["A"] :=
  ⟨by decide, by decide, by decide⟩

/-- The concrete three-pair batch used by the C2 witness. -/
def c2Batch : List (String × RawPair) :=
  [("A", { liquidity := some "2" }), ("B", { liquidity := some "7" }),
   ("C", { liquidity := some "5" })]

/-- Claim C2, amended.  For every raw pair batch and every positive limit,
`getPairs` truncates the raw entry list to its first `limit` entries before
normalization; every truncated entry — with no validity filtering — becomes
a record, the returned records are a permutation of exactly those entries
sorted descending by `liquidityUSD` (whenever the parsed liquidity values
are finite), and `summary.totalPairs` equals the number of returned records,
namely `min N limit` — not the full batch size `N`. -/
theorem c2_amended (raw : List (String × RawPair)) (limit : Nat) (hpos : 0 < limit)
    (hfin : ∀ e ∈ truncateEntries raw (some limit),
      ((analyzePair e.1 e.2).liquidityUSD).isFinite = true) :
    (getPairsData { data := some raw } (some limit)).summary.totalPairs
      = min raw.length limit ∧
    (getPairsData { data := some raw } (some limit)).pairs.length
      = min raw.length limit ∧
    List.Perm (getPairsData { data := some raw } (some limit)).pairs
      ((truncateEntries raw (some limit)).map (fun e => analyzePair e.1 e.2)) ∧
    List.Pairwise (fun a b => (b.liquidityUSD).ratVal ≤ (a.liquidityUSD).ratVal)
      (getPairsData { data := some raw } (some limit)).pairs := by
  have hmapped : (getPairsData { data := some raw } (some limit)).pairs
      = sortBy liqLe ((truncateEntries raw (some limit)).map (fun e => analyzePair e.1 e.2)) :=
    rfl
  have htot : (getPairsData { data := some raw } (some limit)).summary.totalPairs
      = ((truncateEntries raw (some limit)).map (fun e => analyzePair e.1 e.2)).length := rfl
  have hlen : ((truncateEntries raw (some limit)).map (fun e => analyzePair e.1 e.2)).length
      = min raw.length limit := by
    rw [List.length_map, truncateEntries_length_pos raw limit hpos]
  have hfin' : ∀ p ∈ (truncateEntries raw (some limit)).map (fun e => analyzePair e.1 e.2),
      (p.liquidityUSD).isFinite = true := by
    intro p hp
    rcases List.mem_map.mp hp with ⟨e, he, rfl⟩
    exact hfin e he
  have hfinEx : ∀ p ∈ (truncateEntries raw (some limit)).map (fun e => analyzePair e.1 e.2),
      ∃ q : ℚ, p.liquidityUSD = JSNum.fin q := by
    intro p hp
    have := hfin' p hp
    cases h : p.liquidityUSD with
    | fin q => exact ⟨q, rfl⟩
    | nan => rw [h] at this; exact absurd this (by decide)
    | inf => rw [h] at this; exact absurd this (by decide)
    | negInf => rw [h] at this; exact absurd this (by decide)
  refine ⟨by rw [htot, hlen], by rw [hmapped, sortBy_length, hlen], ?_, ?_⟩
  · rw [hmapped]
    exact sortBy_perm _ _
  · rw [hmapped]
    have hsorted : List.Pairwise (fun a b => liqLe a b = true)
        (sortBy liqLe ((truncateEntries raw (some limit)).map (fun e => analyzePair e.1 e.2))) := by
      apply sortBy_pairwise
      · intro a ha b hb
        rcases hfinEx a ha with ⟨qa, hqa⟩
        rcases hfinEx b hb with ⟨qb, hqb⟩
        rw [liqLe_fin hqa hqb, liqLe_fin hqb hqa]
        rcases le_total qb qa with h | h
        · exact Or.inl (decide_eq_true h)
        · exact Or.inr (decide_eq_true h)
      · intro a ha b hb c hc hab hbc
        rcases hfinEx a ha with ⟨qa, hqa⟩
        rcases hfinEx b hb with ⟨qb, hqb⟩
        rcases hfinEx c hc with ⟨qc, hqc⟩
        rw [liqLe_fin hqa hqb] at hab
        rw [liqLe_fin hqb hqc] at hbc
        rw [liqLe_fin hqa hqc]
        exact decide_eq_true (le_trans (of_decide_eq_true hbc) (of_decide_eq_true hab))
    refine hsorted.imp_of_mem ?_
    intro a b ha hb hab
    have ha' := (sortBy_mem liqLe a _).mp ha
    have hb' := (sortBy_mem liqLe b _).mp hb
    rcases hfinEx a ha' with ⟨qa, hqa⟩
    rcases hfinEx b hb' with ⟨qb, hqb⟩
    rw [liqLe_fin hqa hqb] at hab
    rw [hqa, hqb]
    exact of_decide_eq_true hab

/-- Witness for the amended C2 at a concrete three-pair batch with limit 2. -/
theorem c2_amended_witness :
    (0 < 2 ∧ ∀ e ∈ truncateEntries c2Batch (some 2),
      ((analyzePair e.1 e.2).liquidityUSD).isFinite = true) ∧
    ((getPairsData { data := some c2Batch } (some 2)).summary.totalPairs
        = min c2Batch.length 2 ∧
     (getPairsData { data := some c2Batch } (some 2)).pairs.length
        = min c2Batch.length 2 ∧
     List.Perm (getPairsData { data := some c2Batch } (some 2)).pairs
        ((truncateEntries c2Batch (some 2)).map (fun e => analyzePair e.1 e.2)) ∧
     List.Pairwise (fun a b => (b.liquidityUSD).ratVal ≤ (a.liquidityUSD).ratVal)
        (getPairsData { data := some c2Batch } (some 2)).pairs) :=
  ⟨⟨by decide, by decide⟩, c2_amended c2Batch 2 (by decide) (by decide)⟩

/-- Claim C4, counterexample.  The claim states that every successful batch
response carries a `dataQuality` report with total/valid/rejected counts.
The success objects of `getPairs` and `getTokens` carry no `dataQuality`
member at all — neither at the data level nor inside `summary` — even
though a batch whose only record is invalid is still a success. -/
theorem c4_counterexample :
    (getPairsResp (some 10) (Except.ok { data := some [("A_B", { liquidity := some "abc" })] })).status = RStatus.success ∧
    "dataQuality" ∉ getPairsDataKeys ∧
    "dataQuality" ∉ getPairsSummaryKeys ∧
    "dataQuality" ∉ getTokensDataKeys ∧
    "dataQuality" ∉ getTokensSummaryKeys :=
  ⟨rfl, by decide, by decide, by decide, by decide⟩

/-- Claim C4, amended.  Every successful batch response (pairs or tokens)
carries a `summary` block with aggregate counts over the returned records,
but no `dataQuality` report (no valid/rejected tallies exist anywhere in the
response); a batch whose records are all invalid is still returned as a
success outcome with every entry included — only a fetch failure produces an
error outcome. -/
theorem c4_amended :
    "summary" ∈ getPairsDataKeys ∧ "summary" ∈ getTokensDataKeys ∧
    "totalPairs" ∈ getPairsSummaryKeys ∧ "totalTokens" ∈ getTokensSummaryKeys ∧
    "dataQuality" ∉ getPairsDataKeys ∧ "dataQuality" ∉ getPairsSummaryKeys ∧
    "dataQuality" ∉ getTokensDataKeys ∧ "dataQuality" ∉ getTokensSummaryKeys ∧
    (∀ (p : PairsPayload) (limit : Option Nat),
      (getPairsResp limit (Except.ok p)).status = RStatus.success) ∧
    (∀ (p : TokensPayload) (limit : Option Nat),
      (getTokensResp limit (Except.ok p)).status = RStatus.success) ∧
    ((getPairsResp (some 10) (Except.ok { data := some [("A_B", { liquidity := some "junk", base_volume := some "junk" }), ("C_D", {})] })).data.map (fun d => d.pairs.length) = some 2) :=
  ⟨by decide, by decide, by decide, by decide, by decide, by decide, by decide, by decide,
   fun _ _ => rfl, fun _ _ => rfl, by decide⟩

/-- Claim C5, counterexample.  The claim counts a non-JSON body among the
fetch failures that every operation must surface as a status-error result.
In the code a 2xx response with a non-JSON body does not reject: axios
silently fulfils with the unparsed string, `data.data || {}` degrades to
zero entries, and `getPairs` returns a success envelope — status `success`,
not `error`, with zero records and no message. -/
theorem c5_counterexample :
    (getPairsRespAxios (some 10) (FetchOutcome.rawBody "<html>not json</html>")).status
      = RStatus.success ∧
    (getPairsRespAxios (some 10) (FetchOutcome.rawBody "<html>not json</html>")).status
      ≠ RStatus.error ∧
    ((getPairsRespAxios (some 10) (FetchOutcome.rawBody "<html>not json</html>")).data.map
      (fun d => d.pairs.length)) = some 0 :=
  ⟨rfl, by decide, by decide⟩

/-- Claim C5, amended.  For every fetch rejection — network error or non-2xx
response — each `VVSAnalytics` operation (`getSupplyInfo`, `getSummary`,
`getTokens`, `getTokenInfo`, `getPairs`) returns a structured result with
status `error` and a nonempty message, lets no exception escape the
component boundary, and performs no retry (each operation is a total
function of its single fetch outcome).  A 2xx response is always a success
outcome: with a parsed JSON body the payload is processed, and with a
non-JSON body the operation still returns a success envelope whose
extraction degraded to the all-absent payload — `getPairs`, for instance,
then reports zero records. -/
theorem c5_amended :
    (∀ e : String, (getSupplyRespAxios (FetchOutcome.reject e)).status = RStatus.error ∧
      ∃ m, (getSupplyRespAxios (FetchOutcome.reject e)).message = some m ∧ m ≠ "") ∧
    (∀ (limit : Option Nat) (e : String),
      (getSummaryRespAxios limit (FetchOutcome.reject e)).status = RStatus.error ∧
      ∃ m, (getSummaryRespAxios limit (FetchOutcome.reject e)).message = some m ∧ m ≠ "") ∧
    (∀ (limit : Option Nat) (e : String),
      (getTokensRespAxios limit (FetchOutcome.reject e)).status = RStatus.error ∧
      ∃ m, (getTokensRespAxios limit (FetchOutcome.reject e)).message = some m ∧ m ≠ "") ∧
    (∀ (a e : String),
      (getTokenInfoRespAxios a (FetchOutcome.reject e)).status = RStatus.error ∧
      ∃ m, (getTokenInfoRespAxios a (FetchOutcome.reject e)).message = some m ∧ m ≠ "") ∧
    (∀ (limit : Option Nat) (e : String),
      (getPairsRespAxios limit (FetchOutcome.reject e)).status = RStatus.error ∧
      ∃ m, (getPairsRespAxios limit (FetchOutcome.reject e)).message = some m ∧ m ≠ "") ∧
    (∀ p, (getSupplyRespAxios (FetchOutcome.json p)).status = RStatus.success) ∧
    (∀ (limit : Option Nat) p,
      (getSummaryRespAxios limit (FetchOutcome.json p)).status = RStatus.success) ∧
    (∀ (limit : Option Nat) p,
      (getTokensRespAxios limit (FetchOutcome.json p)).status = RStatus.success) ∧
    (∀ (a : String) p, (getTokenInfoRespAxios a (FetchOutcome.json p)).status = RStatus.success) ∧
    (∀ (limit : Option Nat) p,
      (getPairsRespAxios limit (FetchOutcome.json p)).status = RStatus.success) ∧
    (∀ body : String, (getSupplyRespAxios (FetchOutcome.rawBody body)).status = RStatus.success) ∧
    (∀ (limit : Option Nat) (body : String),
      (getSummaryRespAxios limit (FetchOutcome.rawBody body)).status = RStatus.success) ∧
    (∀ (limit : Option Nat) (body : String),
      (getTokensRespAxios limit (FetchOutcome.rawBody body)).status = RStatus.success) ∧
    (∀ (a body : String),
      (getTokenInfoRespAxios a (FetchOutcome.rawBody body)).status = RStatus.success) ∧
    (∀ (limit : Option Nat) (body : String),
      (getPairsRespAxios limit (FetchOutcome.rawBody body)).status = RStatus.success ∧
      (getPairsRespAxios limit (FetchOutcome.rawBody body)).data.map (fun d => d.pairs.length)
        = some 0) := by
  refine ⟨fun e => axiosResp_reject_envelope _ (by decide) _ _ e,
    fun _ e => axiosResp_reject_envelope _ (by decide) _ _ e,
    fun _ e => axiosResp_reject_envelope _ (by decide) _ _ e,
    fun _ e => axiosResp_reject_envelope _ (by decide) _ _ e,
    fun _ e => axiosResp_reject_envelope _ (by decide) _ _ e,
    fun _ => rfl, fun _ _ => rfl, fun _ _ => rfl, fun _ _ => rfl, fun _ _ => rfl,
    fun _ => rfl, fun _ _ => rfl, fun _ _ => rfl, fun _ _ => rfl, ?_⟩
  intro limit body
  refine ⟨rfl, ?_⟩
  have hlen : (getPairsData ({} : PairsPayload) limit).pairs.length = 0 := by
    have h1 : (getPairsData ({} : PairsPayload) limit).pairs
        = sortBy liqLe ((truncateEntries ([] : List (String × RawPair)) limit).map
            (fun e => analyzePair e.1 e.2)) := rfl
    rw [h1, truncateEntries_nil]
    rfl
  show Option.map (fun d => d.pairs.length) (some (getPairsData ({} : PairsPayload) limit))
    = some 0
  rw [Option.map_some', hlen]

/-- Claim C10 (confirmed): the constructor sets `network` to the requested
network (default `cronos-mainnet`), and its network-switch branch — the
client re-initialisation and the missing-key warning — is unreachable for
every argument and every key configuration, because the guard compares
`targetNetwork` against the field just assigned from it. -/
theorem c10_ctor_no_reinit (t : Option CronosNetwork) (canSwitch : CronosNetwork → Bool) :
    (agentCtor t canSwitch).network = t.getD CronosNetwork.cronosMainnet ∧
    (agentCtor t canSwitch).clientReinit = false ∧
    (agentCtor t canSwitch).warnedMissingKey = false := by
  cases t with
  | none => exact ⟨rfl, rfl, rfl⟩
  | some x => refine ⟨?_, ?_, ?_⟩ <;> simp [agentCtor]

end CronosMcp
